import Mathlib

/-
Verification of the proximity-filtered incident aggregation and brief-generation
engine of src/bots/nox_crime.py (class ChicagoCrimeAnalyzer).

The Python code is shallowly embedded as follows.
- Python floats become rationals; timestamps become integers (seconds since the
  Unix epoch, which begins on a Thursday).
- A feed record is a structure over the fields the code touches: primary_type,
  date, latitude, longitude.  A missing or unparseable field is modelled as
  none.
- The one outbound network call of fetch_crimes_near_location is modelled by a
  parameter net : Option (List FeedRecord): none stands for a request that
  raises, some db for a successful request against the feed content db.  The
  server evaluates the SoQL where clause built by the code (a null field fails
  every comparison), orders by date descending, and applies the 1000-row limit.
- Python exceptions that escape a function are modelled with Except: the code
  divides by 111 * abs(lat), which raises ZeroDivisionError at lat = 0; calling
  .title() on None raises AttributeError; the operator applied to None by the
  membership test raises TypeError.
- generate_brief returns a formatted string; its final concatenation is pure
  presentation, so the embedding returns the record BriefData of every value
  the code computes and interpolates into that string, in the order the code
  computes them (so an exception raised while formatting is preserved).
-/

namespace NoxCrime

inductive PyError where
  | zeroDivisionError
  | attributeError
  | typeError
deriving DecidableEq

structure FeedRecord where
  primary_type : Option String
  date : Option Int
  latitude : Option ℚ
  longitude : Option ℚ
deriving DecidableEq

instance {ε α : Type} [DecidableEq ε] [DecidableEq α] : DecidableEq (Except ε α) :=
  fun a b =>
    match a, b with
    | Except.ok x, Except.ok y =>
        if h : x = y then isTrue (by rw [h]) else
          isFalse (fun hh => h (Except.ok.inj hh))
    | Except.error x, Except.error y =>
        if h : x = y then isTrue (by rw [h]) else
          isFalse (fun hh => h (Except.error.inj hh))
    | Except.ok _, Except.error _ => isFalse (fun hh => Except.noConfusion hh)
    | Except.error _, Except.ok _ => isFalse (fun hh => Except.noConfusion hh)

/-- Line 281: end_date = datetime.now() - timedelta(days=3). -/
def end_date (now : Int) : Int := now - 3 * 86400

/-- Line 282: start_date = end_date - timedelta(days=7). -/
def start_date (now : Int) : Int := end_date now - 7 * 86400

/-- Line 285: lat_delta = radius_km / 111.0. -/
def lat_delta (radius_km : ℚ) : ℚ := radius_km / 111

/-- Line 286: lon_delta = radius_km / (111.0 * abs(float(lat))).  Defined for
lat different from 0; at lat = 0 the Python expression raises
ZeroDivisionError, which fetch_crimes_near_location models explicitly. -/
def lon_delta (lat radius_km : ℚ) : ℚ := radius_km / (111 * |lat|)

/-- The where clause of line 294: date between start and end, latitude and
longitude inside the bounding box.  A record with a null field fails the
comparison, as in SoQL. -/
def matchesWhere (sd ed : Int) (min_lat max_lat min_lon max_lon : ℚ)
    (c : FeedRecord) : Bool :=
  (match c.date with
   | some d => decide (sd ≤ d) && decide (d ≤ ed)
   | none => false) &&
  (match c.latitude with
   | some la => decide (min_lat ≤ la) && decide (la ≤ max_lat)
   | none => false) &&
  (match c.longitude with
   | some lo => decide (min_lon ≤ lo) && decide (lo ≤ max_lon)
   | none => false)

/-- The order clause of line 296: date DESC. -/
def byDateDesc (a b : FeedRecord) : Prop := b.date.getD 0 ≤ a.date.getD 0

instance : DecidableRel byDateDesc := fun a b => Int.decLe (b.date.getD 0) (a.date.getD 0)

def sortByDateDesc (db : List FeedRecord) : List FeedRecord :=
  List.insertionSort byDateDesc db

/-- Lines 280-307: fetch_crimes_near_location.  The bounding box is computed
before the request; the try block around the request returns the parsed rows
on success and the empty list when the request raises (lines 305-307). -/
def fetch_crimes_near_location (lat lon : ℚ) (radius_km : ℚ) (now : Int)
    (net : Option (List FeedRecord)) : Except PyError (List FeedRecord) :=
  if lat = 0 then
    Except.error PyError.zeroDivisionError
  else
    match net with
    | none => Except.ok []
    | some db =>
        Except.ok ((sortByDateDesc (db.filter
          (matchesWhere (start_date now) (end_date now)
            (lat - lat_delta radius_km) (lat + lat_delta radius_km)
            (lon - lon_delta lat radius_km) (lon + lon_delta lat radius_km)))).take 1000)

/-- Lines 328-335: the time-of-day bucket of an hour, following the chain of
conditionals of the source. -/
def timeBlockLabel (hour : Nat) : String :=
  if 18 ≤ hour ∧ hour < 24 then "evening (6PM-midnight)"
  else if 0 ≤ hour ∧ hour < 6 then "late night (midnight-6AM)"
  else if 6 ≤ hour ∧ hour < 12 then "morning (6AM-noon)"
  else "afternoon (noon-6PM)"

/-- Modelled from the spec: the longitude delta the specification prescribes,
radius_km / (111.0 * cos(latitude)), latitude in degrees.  Stated over the
reals because the cosine is transcendental; kept for comparison with the
lon_delta the source computes. -/
noncomputable def lon_delta_spec (lat radius_km : ℝ) : ℝ :=
  radius_km / (111 * Real.cos (lat * (Real.pi / 180)))

/-- The insertion-ordered tally underlying collections.Counter and
collections.defaultdict(int): a key seen for the first time is appended at the
end with count 1, a key already present has its count incremented in place,
so the keys stay in first-seen order. -/
def bump {α : Type} [DecidableEq α] (x : α) : List (α × Nat) → List (α × Nat)
  | [] => [(x, 1)]
  | (k, n) :: t => if x = k then (k, n + 1) :: t else (k, n) :: bump x t

/-- Line 315: Counter(c.get(primary_type) for c in crimes), as an association
list in first-seen key order. -/
def counter {α : Type} [DecidableEq α] (l : List α) : List (α × Nat) :=
  l.foldl (fun acc x => bump x acc) []

/-- Descending order by count, the sort key of Counter.most_common. -/
def byCountDesc {α : Type} (a b : α × Nat) : Prop := b.2 ≤ a.2

instance {α : Type} : DecidableRel (byCountDesc (α := α)) :=
  fun a b => Nat.decLe b.2 a.2

instance {α : Type} : IsTotal (α × Nat) byCountDesc :=
  ⟨fun a b => Or.symm (Nat.le_total a.2 b.2)⟩

instance {α : Type} : IsTrans (α × Nat) byCountDesc :=
  ⟨fun _ _ _ hab hbc => Nat.le_trans hbc hab⟩

/-- Line 316: Counter.most_common(n), a stable descending sort by count of the
tally items followed by taking the first n; ties keep first-seen order. -/
def most_common {α : Type} [DecidableEq α] (n : Nat) (l : List (α × Nat)) :
    List (α × Nat) :=
  (List.insertionSort byCountDesc l).take n

/-- Line 380: list(dict.fromkeys(l)), duplicates removed keeping the first
occurrence of each element. -/
def dedupFirst {α : Type} [DecidableEq α] (seen : List α) : List α → List α
  | [] => []
  | x :: xs => if x ∈ seen then dedupFirst seen xs else x :: dedupFirst (x :: seen) xs

/-- Line 325: dt.hour of an epoch timestamp in seconds. -/
def hourOf (d : Int) : Nat := ((d / 3600) % 24).toNat

/-- Line 326: dt.strftime of the full weekday name; epoch day 0 is a
Thursday. -/
def weekdayName (d : Int) : String :=
  (["Thursday", "Friday", "Saturday", "Sunday", "Monday", "Tuesday",
    "Wednesday"].getD ((d / 86400) % 7).toNat (""))

/-- Lines 321-339: the records that enter the time and day tallies, those
whose date field is present and parseable; a record without one is skipped by
the if and the except: pass. -/
def parsedDates (crimes : List FeedRecord) : List Int :=
  crimes.filterMap (fun c => c.date)

/-- Lines 318-337: the defaultdict time_blocks, keys in insertion order. -/
def time_blocks_of (crimes : List FeedRecord) : List (String × Nat) :=
  counter ((parsedDates crimes).map (fun d => timeBlockLabel (hourOf d)))

/-- Lines 319-337: the defaultdict days, keys in insertion order. -/
def days_of (crimes : List FeedRecord) : List (String × Nat) :=
  counter ((parsedDates crimes).map weekdayName)

/-- One step of Python max(items, key=value): a later element replaces the
current best only when strictly greater, so the first maximum wins. -/
def pickMax (best y : String × Nat) : String × Nat :=
  if best.2 < y.2 then y else best

/-- Python max(items, key=value): the first element of maximal value in
iteration order.  Returns none on an empty list, where Python would raise. -/
def pyMaxByVal : List (String × Nat) → Option (String × Nat)
  | [] => none
  | x :: xs => some (xs.foldl pickMax x)

/-- Line 341: riskiest_time. -/
def riskiest_time_of (crimes : List FeedRecord) : String :=
  match pyMaxByVal (time_blocks_of crimes) with
  | some p => p.1
  | none => "unknown"

/-- Line 342: riskiest_day. -/
def riskiest_day_of (crimes : List FeedRecord) : String :=
  match pyMaxByVal (days_of crimes) with
  | some p => p.1
  | none => "unknown"

/-- Line 364: time_blocks.get(riskiest_time, 0). -/
def lookupCount (l : List (String × Nat)) (k : String) : Nat :=
  match l.find? (fun p => p.1 == k) with
  | some p => p.2
  | none => 0

/-- Whether the character list n occurs at the start of h. -/
def leadEq : List Char → List Char → Bool
  | [], _ => true
  | _ :: _, [] => false
  | a :: as, b :: bs => a == b && leadEq as bs

/-- Whether the character list n occurs inside h. -/
def subIn : List Char → List Char → Bool
  | n, [] => n.isEmpty
  | n, h :: t => leadEq n (h :: t) || subIn n t

/-- The Python membership test needle in haystack on strings: substring
containment, case sensitive. -/
def pyIn (needle hay : String) : Bool := subIn needle.data hay.data

/-- str.title() on ASCII text: an alphabetic character is uppercased when the
previous character is not alphabetic and lowercased otherwise. -/
def titleChars : Bool → List Char → List Char
  | _, [] => []
  | prev, c :: t =>
      (if c.isAlpha then (if prev then c.toLower else c.toUpper) else c) ::
        titleChars c.isAlpha t

/-- Line 359: crime_type.title().  Calling .title() on None raises
AttributeError. -/
def pyTitle : Option String → Except PyError String
  | none => Except.error PyError.attributeError
  | some s => Except.ok (String.mk (titleChars false s.data))

def advTheft : String := "â€¢ Secure vehicles in view"

def advBattery : String := "â€¢ Avoid solo walks after dark"

def advBurglary : String := "â€¢ Verify locks before leaving"

def advRobbery : String := "â€¢ Stay in lit areas after sunset"

/-- Lines 370-378: the advisory contributed by one top category, at most one
per category because of the elif chain.  The membership test applied to None
raises TypeError. -/
def rec_for (crime_type : Option String) : Except PyError (Option String) :=
  match crime_type with
  | none => Except.error PyError.typeError
  | some s =>
      if pyIn ("THEFT") s then Except.ok (some advTheft)
      else if pyIn ("BATTERY") s then Except.ok (some advBattery)
      else if pyIn ("BURGLARY") s then Except.ok (some advBurglary)
      else if pyIn ("ROBBERY") s then Except.ok (some advRobbery)
      else Except.ok none

/-- Lines 369-378: the recommendations list accumulated over top_crimes in
order, before deduplication. -/
def recommendations_raw : List (Option String × Nat) → Except PyError (List String)
  | [] => Except.ok []
  | (ct, _) :: t => do
      let r ← rec_for ct
      let rest ← recommendations_raw t
      match r with
      | some s => Except.ok (s :: rest)
      | none => Except.ok rest

/-- Line 380: list(dict.fromkeys(recommendations))[:3]. -/
def recommendations_final (top_crimes : List (Option String × Nat)) :
    Except PyError (List String) := do
  let raw ← recommendations_raw top_crimes
  Except.ok ((dedupFirst [] raw).take 3)

/-- Lines 357-359: the threat-breakdown lines, one per top category: the
title-cased name, the count, and the percentage count / total * 100. -/
def top_lines : List (Option String × Nat) → Nat → Except PyError (List (String × Nat × ℚ))
  | [], _ => Except.ok []
  | (ct, count) :: t, n => do
      let s ← pyTitle ct
      let rest ← top_lines t n
      Except.ok ((s, count, ((count : ℚ) / (n : ℚ)) * 100) :: rest)

/-- Lines 315-316 composed: the top-3 category ranking of an incident list,
Counter(...).most_common(3). -/
def top_crimes_of (crimes : List FeedRecord) : List (Option String × Nat) :=
  most_common 3 (counter (crimes.map (fun c => c.primary_type)))

/-- str.upper() on ASCII text, character by character. -/
def pyUpper (s : String) : String := String.mk (s.data.map Char.toUpper)

/-- Modelled from the spec words of claim C7, for comparison only: the
advisory for one category under case-insensitive substring matching of the
rule keys, which the source does not implement. -/
def rec_for_ci (crime_type : Option String) : Option String :=
  match crime_type with
  | none => none
  | some s =>
      if pyIn ("THEFT") (pyUpper s) then some advTheft
      else if pyIn ("BATTERY") (pyUpper s) then some advBattery
      else if pyIn ("BURGLARY") (pyUpper s) then some advBurglary
      else if pyIn ("ROBBERY") (pyUpper s) then some advRobbery
      else none

/-- Modelled from the spec words of claim C7, for comparison only: the
recommendation list under case-insensitive matching, deduplicated keeping
first occurrences and capped at 3. -/
def recommendations_ci (top_crimes : List (Option String × Nat)) : List String :=
  (dedupFirst [] (top_crimes.filterMap (fun p => rec_for_ci p.1))).take 3

/-- Every value generate_brief computes and interpolates into its output
string, in source order; the concatenation itself is presentation and is not
modelled.  The all-clear variant of line 313 sets allClear and leaves every
breakdown field empty. -/
structure BriefData where
  allClear : Bool
  address : String
  incident_count : Nat
  topLines : List (String × Nat × ℚ)
  riskiest_day : String
  riskiest_time : String
  riskiestTimeCount : Nat
  recommendations : List String
  elevatedActivity : Bool
deriving DecidableEq

/-- Lines 309-396: generate_brief.  Fetches with the default radius 0.8 km,
returns the all-clear variant on an empty list, and otherwise computes the
tally, ranking, bucketing, and recommendation values in source order, with
the exceptions the source can raise. -/
def generate_brief (lat lon : ℚ) (address : String) (now : Int)
    (net : Option (List FeedRecord)) : Except PyError BriefData := do
  let crimes ← fetch_crimes_near_location lat lon (8 / 10) now net
  if crimes.isEmpty then
    Except.ok
      { allClear := true, address := address, incident_count := 0, topLines := [],
        riskiest_day := "", riskiest_time := "", riskiestTimeCount := 0,
        recommendations := [], elevatedActivity := false }
  else
    let crime_types := counter (crimes.map (fun c => c.primary_type))
    let top_crimes := most_common 3 crime_types
    let time_blocks := time_blocks_of crimes
    let riskiest_time := riskiest_time_of crimes
    let riskiest_day := riskiest_day_of crimes
    let tl ← top_lines top_crimes crimes.length
    let recs ← recommendations_final top_crimes
    Except.ok
      { allClear := false, address := address, incident_count := crimes.length,
        topLines := tl, riskiest_day := riskiest_day, riskiest_time := riskiest_time,
        riskiestTimeCount := lookupCount time_blocks riskiest_time,
        recommendations := recs, elevatedActivity := decide (crimes.length > 50) }

/-- A record accepted by the where clause carries a date inside the window. -/
theorem matchesWhere_date {sd ed : Int} {mla mxa mlo mxo : ℚ} {c : FeedRecord}
    (h : matchesWhere sd ed mla mxa mlo mxo c = true) :
    ∃ d, c.date = some d ∧ sd ≤ d ∧ d ≤ ed := by
  unfold matchesWhere at h
  cases hd : c.date with
  | none => rw [hd] at h; simp at h
  | some d =>
      rw [hd] at h
      simp only [Bool.and_eq_true, decide_eq_true_eq] at h
      exact ⟨d, rfl, h.1.1.1, h.1.1.2⟩

/-- A record accepted by the where clause carries a latitude inside the box. -/
theorem matchesWhere_lat {sd ed : Int} {mla mxa mlo mxo : ℚ} {c : FeedRecord}
    (h : matchesWhere sd ed mla mxa mlo mxo c = true) :
    ∃ la, c.latitude = some la ∧ mla ≤ la ∧ la ≤ mxa := by
  unfold matchesWhere at h
  cases hl : c.latitude with
  | none => rw [hl] at h; simp at h
  | some la =>
      rw [hl] at h
      simp only [Bool.and_eq_true, decide_eq_true_eq] at h
      exact ⟨la, rfl, h.1.2.1, h.1.2.2⟩

/-- C4: every hour of day 0..23 falls in exactly one of the four buckets,
following the partition 18..23 evening, 0..5 late night, 6..11 morning,
12..17 afternoon. -/
theorem hour_bucket_partition :
    ∀ h : Fin 24,
      (timeBlockLabel h.val = "evening (6PM-midnight)" ↔ 18 ≤ h.val ∧ h.val < 24) ∧
      (timeBlockLabel h.val = "late night (midnight-6AM)" ↔ h.val < 6) ∧
      (timeBlockLabel h.val = "morning (6AM-noon)" ↔ 6 ≤ h.val ∧ h.val < 12) ∧
      (timeBlockLabel h.val = "afternoon (noon-6PM)" ↔ 12 ≤ h.val ∧ h.val < 18) := by
  decide

/-- C9: at latitude exactly 0 the bounding-box computation divides by
111 * abs(0) = 0, so fetch_crimes_near_location raises ZeroDivisionError
whatever the network does, and never returns an incident list. -/
theorem fetch_zero_latitude_division_error :
    ∀ (lon radius_km : ℚ) (now : Int) (net : Option (List FeedRecord)),
      fetch_crimes_near_location 0 lon radius_km now net =
        Except.error PyError.zeroDivisionError := by
  intro lon radius_km now net
  simp [fetch_crimes_near_location]

/-- C1: a fetch whose network request raises returns exactly the same value,
Except.ok [], as a successful fetch that found zero incidents; the caller
cannot distinguish the two outcomes. -/
theorem fetch_error_conflated_with_empty :
    fetch_crimes_near_location 41 (-87) (8 / 10) 1000000 none =
      fetch_crimes_near_location 41 (-87) (8 / 10) 1000000 (some []) ∧
    fetch_crimes_near_location 41 (-87) (8 / 10) 1000000 none = Except.ok [] := by
  constructor <;> rfl

/-- C2: the longitude delta computed by the code, radius / (111 * abs(lat)),
differs from the cosine formula of the claim: at latitude 60 and radius 1 km
the code yields 1/6660 of a degree while the claimed formula yields 2/111. -/
theorem lon_delta_omits_cosine :
    ((lon_delta 60 1 : ℚ) : ℝ) ≠ lon_delta_spec 60 1 := by
  have h1 : (lon_delta 60 1 : ℚ) = 1 / 6660 := by
    norm_num [lon_delta, abs_of_pos]
  have h2 : (60 : ℝ) * (Real.pi / 180) = Real.pi / 3 := by ring
  rw [h1, lon_delta_spec, h2, Real.cos_pi_div_three]
  push_cast
  norm_num

/-- Concrete evaluation: a single record at the query point, dated inside the
window, passes the where clause and is returned by the fetch. -/
theorem fetch_singleton_eval (pt : Option String) :
    fetch_crimes_near_location 41 (-87) (8 / 10) 1000000
      (some [⟨pt, some 500000, some 41, some (-87)⟩]) =
    Except.ok [⟨pt, some 500000, some 41, some (-87)⟩] := by
  have hm : matchesWhere (start_date 1000000) (end_date 1000000)
      (41 - lat_delta (8 / 10)) (41 + lat_delta (8 / 10))
      (-87 - lon_delta 41 (8 / 10)) (-87 + lon_delta 41 (8 / 10))
      ⟨pt, some 500000, some 41, some (-87)⟩ = true := by
    simp only [matchesWhere, Bool.and_eq_true, decide_eq_true_eq]
    have habs : |(41 : ℚ)| = 41 := by norm_num
    refine ⟨⟨⟨?_, ?_⟩, ?_, ?_⟩, ?_, ?_⟩ <;>
      norm_num [start_date, end_date, lat_delta, lon_delta, habs]
  unfold fetch_crimes_near_location
  rw [if_neg (by norm_num : ¬ ((41 : ℚ) = 0))]
  simp [List.filter_cons, hm, sortByDateDesc]

/-- C3: the queried window is the 7-day period ending 3 days before now, and
every record an ok fetch returns has its timestamp inside that window. -/
theorem fetch_window_seven_days_lagged :
    ∀ (lat lon radius_km : ℚ) (now : Int) (net : Option (List FeedRecord))
      (res : List FeedRecord),
      fetch_crimes_near_location lat lon radius_km now net = Except.ok res →
      start_date now = now - 10 * 86400 ∧
      end_date now = now - 3 * 86400 ∧
      end_date now - start_date now = 7 * 86400 ∧
      ∀ c ∈ res, ∃ d, c.date = some d ∧ start_date now ≤ d ∧ d ≤ end_date now := by
  intro lat lon radius_km now net res h
  refine ⟨by simp only [start_date, end_date]; ring, rfl,
    by simp only [start_date, end_date]; ring, ?_⟩
  intro c hc
  unfold fetch_crimes_near_location at h
  by_cases hlat : lat = 0
  · rw [if_pos hlat] at h
    simp at h
  · rw [if_neg hlat] at h
    cases net with
    | none =>
        injection h with h'
        subst h'
        simp at hc
    | some db =>
        injection h with h'
        subst h'
        have h1 : c ∈ sortByDateDesc (db.filter
            (matchesWhere (start_date now) (end_date now)
              (lat - lat_delta radius_km) (lat + lat_delta radius_km)
              (lon - lon_delta lat radius_km) (lon + lon_delta lat radius_km))) :=
          List.take_subset 1000 _ hc
        have h2 := ((List.perm_insertionSort byDateDesc _).mem_iff).mp h1
        exact matchesWhere_date (List.mem_filter.mp h2).2

/-- C3 witness: a concrete fetch returning one in-window record. -/
theorem fetch_window_seven_days_lagged_witness :
    fetch_crimes_near_location 41 (-87) (8 / 10) 1000000
        (some [⟨some "THEFT", some 500000, some 41, some (-87)⟩]) =
      Except.ok [⟨some "THEFT", some 500000, some 41, some (-87)⟩] ∧
    (start_date 1000000 = 1000000 - 10 * 86400 ∧
     end_date 1000000 = 1000000 - 3 * 86400 ∧
     end_date 1000000 - start_date 1000000 = 7 * 86400 ∧
     ∀ c ∈ [(⟨some "THEFT", some 500000, some 41, some (-87)⟩ : FeedRecord)],
       ∃ d, c.date = some d ∧ start_date 1000000 ≤ d ∧ d ≤ end_date 1000000) :=
  ⟨fetch_singleton_eval (some "THEFT"),
   fetch_window_seven_days_lagged 41 (-87) (8 / 10) 1000000
     (some [⟨some "THEFT", some 500000, some 41, some (-87)⟩])
     [⟨some "THEFT", some 500000, some 41, some (-87)⟩]
     (fetch_singleton_eval (some "THEFT"))⟩

/-- C8 counterexample: a fetch with radius -1 km does not fail with any
invalid-input condition; it succeeds with an empty list even though the feed
holds a record at the query point. -/
theorem negative_radius_returns_ok :
    fetch_crimes_near_location 41 (-87) (-1) 1000000
      (some [⟨some "THEFT", some 500000, some 41, some (-87)⟩]) = Except.ok [] := by
  have hm : matchesWhere (start_date 1000000) (end_date 1000000)
      (41 - lat_delta (-1)) (41 + lat_delta (-1))
      (-87 - lon_delta 41 (-1)) (-87 + lon_delta 41 (-1))
      ⟨some "THEFT", some 500000, some 41, some (-87)⟩ = false := by
    cases h : matchesWhere (start_date 1000000) (end_date 1000000)
        (41 - lat_delta (-1)) (41 + lat_delta (-1))
        (-87 - lon_delta 41 (-1)) (-87 + lon_delta 41 (-1))
        ⟨some "THEFT", some 500000, some 41, some (-87)⟩ with
    | false => rfl
    | true =>
        exfalso
        obtain ⟨la, hla, h1, h2⟩ := matchesWhere_lat h
        have hla' : la = 41 := by
          simpa using hla.symm
        rw [hla'] at h1
        rw [lat_delta] at h1
        norm_num at h1
  unfold fetch_crimes_near_location
  rw [if_neg (by norm_num : ¬ ((41 : ℚ) = 0))]
  simp [List.filter_cons, hm, sortByDateDesc]

/-- C8 amended: the fetcher validates nothing; a negative radius inverts the
bounding box, so the range filter matches no record and the fetch returns a
successful empty list whatever the network and the feed hold, with the given
radius used as-is, never clamped. -/
theorem no_validation_negative_radius_empty :
    ∀ (lat lon radius_km : ℚ) (now : Int) (net : Option (List FeedRecord)),
      lat ≠ 0 → radius_km < 0 →
      fetch_crimes_near_location lat lon radius_km now net = Except.ok [] := by
  intro lat lon radius_km now net hlat hr
  unfold fetch_crimes_near_location
  rw [if_neg hlat]
  cases net with
  | none => rfl
  | some db =>
      have hfil : db.filter
          (matchesWhere (start_date now) (end_date now)
            (lat - lat_delta radius_km) (lat + lat_delta radius_km)
            (lon - lon_delta lat radius_km) (lon + lon_delta lat radius_km)) = [] := by
        refine List.filter_eq_nil_iff.mpr ?_
        intro c _ hmw
        obtain ⟨la, _, h1, h2⟩ := matchesWhere_lat hmw
        have hd : lat_delta radius_km < 0 :=
          div_neg_of_neg_of_pos hr (by norm_num)
        linarith
      simp only [hfil]
      rfl

/-- C8 amended witness: at radius -1 the hypotheses hold and the fetch yields
the empty success. -/
theorem no_validation_negative_radius_empty_witness :
    (41 : ℚ) ≠ 0 ∧ (-1 : ℚ) < 0 ∧
    fetch_crimes_near_location 41 (-87) (-1) 1000000
      (some [⟨some "BATTERY", some 500000, some 41, some (-87)⟩]) = Except.ok [] :=
  ⟨by norm_num, by norm_num,
   no_validation_negative_radius_empty 41 (-87) (-1) 1000000
     (some [⟨some "BATTERY", some 500000, some 41, some (-87)⟩])
     (by norm_num) (by norm_num)⟩

/-- C10: on a fetched record lacking the category field, whose None category
then ranks in the top 3, generate_brief raises AttributeError at
crime_type.title() instead of skipping the record and producing a brief. -/
theorem generate_brief_missing_category_raises :
    generate_brief 41 (-87) "home" 1000000
      (some [⟨none, some 500000, some 41, some (-87)⟩]) =
      Except.error PyError.attributeError := by
  unfold generate_brief
  rw [fetch_singleton_eval none]
  rfl

/-- The fold of pickMax over a list yields an element of maximal count that is
either the start accumulator or sits in the list strictly after only smaller
counts. -/
theorem foldl_pickMax_split :
    ∀ (l : List (String × Nat)) (acc : String × Nat),
      (∀ y ∈ l, y.2 ≤ (l.foldl pickMax acc).2) ∧
      acc.2 ≤ (l.foldl pickMax acc).2 ∧
      (l.foldl pickMax acc = acc ∨
        ∃ l1 l2, l = l1 ++ l.foldl pickMax acc :: l2 ∧
          acc.2 < (l.foldl pickMax acc).2 ∧
          ∀ y ∈ l1, y.2 < (l.foldl pickMax acc).2) := by
  intro l
  induction l with
  | nil =>
      intro acc
      exact ⟨by simp, le_refl _, Or.inl rfl⟩
  | cons b t ih =>
      intro acc
      by_cases hb : acc.2 < b.2
      · have hstep : (b :: t).foldl pickMax acc = t.foldl pickMax b := by
          simp [List.foldl_cons, pickMax, hb]
        obtain ⟨H1, H2, H3⟩ := ih b
        rw [hstep]
        refine ⟨?_, le_of_lt (lt_of_lt_of_le hb H2), ?_⟩
        · intro y hy
          rcases List.mem_cons.mp hy with rfl | hy'
          · exact H2
          · exact H1 y hy'
        · rcases H3 with hEq | ⟨l1, l2, hsplit, hlt, hall⟩
          · right
            refine ⟨[], t, by rw [hEq]; rfl, ?_, by simp⟩
            rw [hEq]; exact hb
          · right
            refine ⟨b :: l1, l2, by rw [List.cons_append, ← hsplit], lt_trans hb hlt, ?_⟩
            intro y hy
            rcases List.mem_cons.mp hy with rfl | hy'
            · exact hlt
            · exact hall y hy'
      · have hbe : b.2 ≤ acc.2 := le_of_not_lt hb
        have hstep : (b :: t).foldl pickMax acc = t.foldl pickMax acc := by
          simp [List.foldl_cons, pickMax, hb]
        obtain ⟨H1, H2, H3⟩ := ih acc
        rw [hstep]
        refine ⟨?_, H2, ?_⟩
        · intro y hy
          rcases List.mem_cons.mp hy with rfl | hy'
          · exact le_trans hbe H2
          · exact H1 y hy'
        · rcases H3 with hEq | ⟨l1, l2, hsplit, hlt, hall⟩
          · exact Or.inl hEq
          · right
            refine ⟨b :: l1, l2, by rw [List.cons_append, ← hsplit], hlt, ?_⟩
            intro y hy
            rcases List.mem_cons.mp hy with rfl | hy'
            · exact lt_of_le_of_lt hbe hlt
            · exact hall y hy'

/-- Python max over a nonempty tally picks the first entry of maximal count:
everything before it in the list is strictly smaller, everything overall is at
most it. -/
theorem pyMaxByVal_first :
    ∀ (tb : List (String × Nat)), tb ≠ [] →
      ∃ l1 x l2, tb = l1 ++ x :: l2 ∧ pyMaxByVal tb = some x ∧
        (∀ y ∈ l1, y.2 < x.2) ∧ ∀ y ∈ tb, y.2 ≤ x.2 := by
  intro tb htb
  cases tb with
  | nil => exact absurd rfl htb
  | cons b t =>
      obtain ⟨H1, H2, H3⟩ := foldl_pickMax_split t b
      rcases H3 with hEq | ⟨l1, l2, hsplit, hlt, hall⟩
      · refine ⟨[], b, t, by simp, ?_, by simp, ?_⟩
        · simp [pyMaxByVal, hEq]
        · intro y hy
          rcases List.mem_cons.mp hy with rfl | hy'
          · exact le_refl _
          · exact le_of_le_of_eq (H1 y hy') (congrArg Prod.snd hEq)
      · refine ⟨b :: l1, t.foldl pickMax b, l2,
          by rw [List.cons_append, ← hsplit], rfl, ?_, ?_⟩
        · intro y hy
          rcases List.mem_cons.mp hy with rfl | hy'
          · exact hlt
          · exact hall y hy'
        · intro y hy
          rcases List.mem_cons.mp hy with rfl | hy'
          · exact le_of_lt hlt
          · exact H1 y hy'

/-- C6 counterexample: two inputs holding the same two incidents, one in the
afternoon bucket and one in the morning bucket, produce identical tallies up
to order, yet the riskiest bucket follows the insertion order of the tally
map, not any fixed canonical enumeration of the buckets. -/
theorem riskiest_tie_follows_insertion_order :
    time_blocks_of [⟨some "A", some 46800, some 41, some (-87)⟩,
        ⟨some "B", some 25200, some 41, some (-87)⟩] =
      [("afternoon (noon-6PM)", 1), ("morning (6AM-noon)", 1)] ∧
    time_blocks_of [⟨some "B", some 25200, some 41, some (-87)⟩,
        ⟨some "A", some 46800, some 41, some (-87)⟩] =
      [("morning (6AM-noon)", 1), ("afternoon (noon-6PM)", 1)] ∧
    riskiest_time_of [⟨some "A", some 46800, some 41, some (-87)⟩,
        ⟨some "B", some 25200, some 41, some (-87)⟩] = "afternoon (noon-6PM)" ∧
    riskiest_time_of [⟨some "B", some 25200, some 41, some (-87)⟩,
        ⟨some "A", some 46800, some 41, some (-87)⟩] = "morning (6AM-noon)" := by
  refine ⟨?_, ?_, ?_, ?_⟩ <;> decide

/-- C6 amended: riskiest_time and riskiest_day pick the entry of maximal
tally that was inserted first into the tally map, that is, the bucket or day
whose first contributing incident comes earliest in the input; deterministic
for identical input including order, but not a canonical enumeration of the
buckets or days. -/
theorem riskiest_first_max_in_tally_order :
    ∀ crimes : List FeedRecord,
      time_blocks_of crimes ≠ [] → days_of crimes ≠ [] →
      (∃ l1 x l2, time_blocks_of crimes = l1 ++ x :: l2 ∧
        riskiest_time_of crimes = x.1 ∧
        (∀ y ∈ l1, y.2 < x.2) ∧ ∀ y ∈ time_blocks_of crimes, y.2 ≤ x.2) ∧
      (∃ l1 x l2, days_of crimes = l1 ++ x :: l2 ∧
        riskiest_day_of crimes = x.1 ∧
        (∀ y ∈ l1, y.2 < x.2) ∧ ∀ y ∈ days_of crimes, y.2 ≤ x.2) := by
  intro crimes htb hdays
  constructor
  · obtain ⟨l1, x, l2, hsplit, hmax, hlt, hle⟩ := pyMaxByVal_first _ htb
    exact ⟨l1, x, l2, hsplit, by simp [riskiest_time_of, hmax], hlt, hle⟩
  · obtain ⟨l1, x, l2, hsplit, hmax, hlt, hle⟩ := pyMaxByVal_first _ hdays
    exact ⟨l1, x, l2, hsplit, by simp [riskiest_day_of, hmax], hlt, hle⟩

/-- C6 amended witness: one afternoon incident, hypotheses discharged and the
first-maximum description obtained at a concrete input. -/
theorem riskiest_first_max_in_tally_order_witness :
    time_blocks_of [⟨some "THEFT", some 46800, some 41, some (-87)⟩] ≠ [] ∧
    days_of [⟨some "THEFT", some 46800, some 41, some (-87)⟩] ≠ [] ∧
    ((∃ l1 x l2,
        time_blocks_of [⟨some "THEFT", some 46800, some 41, some (-87)⟩] =
          l1 ++ x :: l2 ∧
        riskiest_time_of [⟨some "THEFT", some 46800, some 41, some (-87)⟩] = x.1 ∧
        (∀ y ∈ l1, y.2 < x.2) ∧
        ∀ y ∈ time_blocks_of [⟨some "THEFT", some 46800, some 41, some (-87)⟩],
          y.2 ≤ x.2) ∧
     (∃ l1 x l2,
        days_of [⟨some "THEFT", some 46800, some 41, some (-87)⟩] = l1 ++ x :: l2 ∧
        riskiest_day_of [⟨some "THEFT", some 46800, some 41, some (-87)⟩] = x.1 ∧
        (∀ y ∈ l1, y.2 < x.2) ∧
        ∀ y ∈ days_of [⟨some "THEFT", some 46800, some 41, some (-87)⟩],
          y.2 ≤ x.2)) :=
  ⟨by decide, by decide,
   riskiest_first_max_in_tally_order
     [⟨some "THEFT", some 46800, some 41, some (-87)⟩] (by decide) (by decide)⟩

/-- dict.fromkeys deduplication yields a list without duplicates, none of
whose elements were already seen. -/
theorem dedupFirst_nodup {α : Type} [DecidableEq α] :
    ∀ (l seen : List α),
      (dedupFirst seen l).Nodup ∧ ∀ x ∈ dedupFirst seen l, x ∉ seen := by
  intro l
  induction l with
  | nil => intro seen; simp [dedupFirst]
  | cons x xs ih =>
      intro seen
      by_cases hx : x ∈ seen
      · simp only [dedupFirst, if_pos hx]
        exact ih seen
      · simp only [dedupFirst, if_neg hx]
        obtain ⟨hnd, hmem⟩ := ih (x :: seen)
        refine ⟨List.nodup_cons.mpr ⟨?_, hnd⟩, ?_⟩
        · intro hxin
          exact (hmem x hxin) (List.mem_cons_self x seen)
        · intro y hy
          rcases List.mem_cons.mp hy with rfl | hy'
          · exact hx
          · intro hyseen
            exact (hmem y hy') (List.mem_cons_of_mem x hyseen)

/-- C7 counterexample: on the mixed-case category Theft the code produces no
recommendation, while the case-insensitive matching the claim describes
produces the theft advisory; the two disagree. -/
theorem recommendations_miss_mixed_case :
    recommendations_final [(some "Theft", 5)] = Except.ok [] ∧
    recommendations_ci [(some "Theft", 5)] = [advTheft] ∧
    Except.ok (recommendations_ci [(some "Theft", 5)]) ≠
      recommendations_final [(some "Theft", 5)] := by
  refine ⟨?_, ?_, ?_⟩ <;> decide

/-- C7 amended: recommendations are built by case-sensitive substring
matching of the uppercase keys THEFT, BATTERY, BURGLARY, ROBBERY against each
top-3 category, at most one advisory per category through the elif chain;
after deduplication keeping first occurrences and the cap, any list an ok run
returns has at most 3 entries and no duplicates. -/
theorem recommendations_bounded_nodup :
    ∀ (top_crimes : List (Option String × Nat)) (res : List String),
      recommendations_final top_crimes = Except.ok res →
      res.length ≤ 3 ∧ res.Nodup := by
  intro tc res h
  unfold recommendations_final at h
  cases hraw : recommendations_raw tc with
  | error e =>
      rw [hraw] at h
      exact absurd h (by simp [Bind.bind, Except.bind])
  | ok raw =>
      rw [hraw] at h
      simp only [Bind.bind, Except.bind] at h
      injection h with h'
      subst h'
      constructor
      · calc ((dedupFirst [] raw).take 3).length
            = min 3 (dedupFirst [] raw).length := List.length_take _ _
          _ ≤ 3 := min_le_left _ _
      · exact ((dedupFirst_nodup raw []).1).sublist (List.take_sublist 3 _)

/-- C7 amended witness: two theft categories contribute the same advisory,
deduplicated to a single entry. -/
theorem recommendations_bounded_nodup_witness :
    recommendations_final [(some "THEFT", 2), (some "AUTO THEFT", 1)] =
      Except.ok [advTheft] ∧
    ([advTheft].length ≤ 3 ∧ [advTheft].Nodup) :=
  ⟨by decide,
   recommendations_bounded_nodup [(some "THEFT", 2), (some "AUTO THEFT", 1)]
     [advTheft] (by decide)⟩

/-- Inserting a pair into a list in descending count order passes only over
strictly larger counts, so the entries of any fixed count keep their relative
order, with the inserted pair in front when it has that count. -/
theorem filter_orderedInsert {α : Type} (c : Nat) (a : α × Nat) :
    ∀ l : List (α × Nat),
      (List.orderedInsert byCountDesc a l).filter (fun x => decide (x.2 = c)) =
        if a.2 = c then a :: l.filter (fun x => decide (x.2 = c))
        else l.filter (fun x => decide (x.2 = c)) := by
  intro l
  induction l with
  | nil =>
      by_cases ha : a.2 = c <;> simp [List.orderedInsert, List.filter_cons, ha]
  | cons b t ih =>
      unfold List.orderedInsert
      by_cases hr : byCountDesc a b
      · rw [if_pos hr]
        by_cases ha : a.2 = c <;> simp [List.filter_cons, ha]
      · rw [if_neg hr]
        by_cases ha : a.2 = c
        · have hb : ¬ (b.2 = c) := by
            intro hbc
            exact hr (le_of_eq (hbc.trans ha.symm))
          simp [List.filter_cons, hb, ih, ha]
        · simp [List.filter_cons, ih, ha]

/-- The stable insertion sort by descending count permutes nothing inside one
count class: filtering the sorted list to a fixed count gives exactly the
filter of the input, in input order. -/
theorem filter_insertionSort {α : Type} (c : Nat) :
    ∀ l : List (α × Nat),
      (List.insertionSort byCountDesc l).filter (fun x => decide (x.2 = c)) =
        l.filter (fun x => decide (x.2 = c)) := by
  intro l
  induction l with
  | nil => rfl
  | cons x t ih =>
      show (List.orderedInsert byCountDesc x
        (List.insertionSort byCountDesc t)).filter _ = _
      rw [filter_orderedInsert]
      by_cases hx : x.2 = c <;> simp [List.filter_cons, hx, ih]

/-- Incrementing a key in the tally keeps the key list unchanged when the key
is present and appends it at the end otherwise. -/
theorem bump_map_fst {α : Type} [DecidableEq α] (x : α) :
    ∀ acc : List (α × Nat),
      (bump x acc).map Prod.fst =
        if x ∈ acc.map Prod.fst then acc.map Prod.fst
        else acc.map Prod.fst ++ [x] := by
  intro acc
  induction acc with
  | nil => simp [bump]
  | cons p t ih =>
      obtain ⟨k, n⟩ := p
      unfold bump
      by_cases hxk : x = k
      · simp [hxk]
      · by_cases hm : x ∈ t.map Prod.fst <;> simp [hxk, ih, hm]

/-- dict.fromkeys depends on the seen set only through membership. -/
theorem dedupFirst_congr {α : Type} [DecidableEq α] :
    ∀ (l s1 s2 : List α), (∀ y, y ∈ s1 ↔ y ∈ s2) →
      dedupFirst s1 l = dedupFirst s2 l := by
  intro l
  induction l with
  | nil => intro s1 s2 _; rfl
  | cons x xs ih =>
      intro s1 s2 h
      by_cases hx : x ∈ s1
      · simp only [dedupFirst, if_pos hx, if_pos ((h x).mp hx)]
        exact ih s1 s2 h
      · simp only [dedupFirst, if_neg hx, if_neg (fun hh => hx ((h x).mpr hh))]
        congr 1
        exact ih (x :: s1) (x :: s2) (fun y => by simp [List.mem_cons, h y])

/-- The keys of the tally fold, in order, are the first occurrences of the
input elements not already tallied. -/
theorem foldl_bump_map_fst {α : Type} [DecidableEq α] :
    ∀ (l : List α) (acc : List (α × Nat)),
      (l.foldl (fun a x => bump x a) acc).map Prod.fst =
        acc.map Prod.fst ++ dedupFirst (acc.map Prod.fst) l := by
  intro l
  induction l with
  | nil => intro acc; simp [dedupFirst]
  | cons x xs ih =>
      intro acc
      rw [List.foldl_cons, ih (bump x acc), bump_map_fst]
      by_cases hx : x ∈ acc.map Prod.fst
      · rw [if_pos hx]
        simp only [dedupFirst, if_pos hx]
      · rw [if_neg hx]
        rw [dedupFirst_congr xs (acc.map Prod.fst ++ [x]) (x :: acc.map Prod.fst)
          (fun y => by simp [List.mem_append, List.mem_cons, or_comm])]
        simp [dedupFirst, hx, List.append_assoc]

/-- The keys of the Counter, in order, are the first occurrences of the
input, so ties in the sorted ranking inherit first-seen order. -/
theorem counter_map_fst {α : Type} [DecidableEq α] (l : List α) :
    (counter l).map Prod.fst = dedupFirst [] l := by
  have h := foldl_bump_map_fst l []
  simpa [counter] using h

/-- C5: the top-category ranking has length at most 3, is sorted in
descending count order, within any fixed count keeps the tally order as a
sublist, and the tally keys are in first-seen order of the input
categories. -/
theorem top_categories_sorted_stable :
    ∀ crimes : List FeedRecord, crimes ≠ [] → ∀ c : Nat,
      (top_crimes_of crimes).length ≤ 3 ∧
      (top_crimes_of crimes).Pairwise byCountDesc ∧
      List.Sublist
        ((top_crimes_of crimes).filter (fun x => decide (x.2 = c)))
        ((counter (crimes.map (fun r => r.primary_type))).filter
          (fun x => decide (x.2 = c))) ∧
      (counter (crimes.map (fun r => r.primary_type))).map Prod.fst =
        dedupFirst [] (crimes.map (fun r => r.primary_type)) := by
  intro crimes _ c
  refine ⟨?_, ?_, ?_, counter_map_fst _⟩
  · unfold top_crimes_of most_common
    calc (List.take 3 (List.insertionSort byCountDesc
          (counter (crimes.map (fun c => c.primary_type))))).length
        = min 3 (List.insertionSort byCountDesc
            (counter (crimes.map (fun c => c.primary_type)))).length :=
          List.length_take _ _
      _ ≤ 3 := min_le_left _ _
  · unfold top_crimes_of most_common
    exact List.Pairwise.sublist (List.take_sublist 3 _)
      (List.sorted_insertionSort byCountDesc _)
  · unfold top_crimes_of most_common
    have h1 := (List.take_sublist 3 (List.insertionSort byCountDesc
      (counter (crimes.map (fun c => c.primary_type))))).filter
      (fun x => decide (x.2 = c))
    rw [filter_insertionSort] at h1
    exact h1

/-- C5 witness: a three-incident input with a repeated category. -/
theorem top_categories_sorted_stable_witness :
    ([⟨some "THEFT", some 500000, some 41, some (-87)⟩,
      ⟨some "BATTERY", some 400000, some 41, some (-87)⟩,
      ⟨some "THEFT", some 300000, some 41, some (-87)⟩] : List FeedRecord) ≠ [] ∧
    ((top_crimes_of [⟨some "THEFT", some 500000, some 41, some (-87)⟩,
        ⟨some "BATTERY", some 400000, some 41, some (-87)⟩,
        ⟨some "THEFT", some 300000, some 41, some (-87)⟩]).length ≤ 3 ∧
     (top_crimes_of [⟨some "THEFT", some 500000, some 41, some (-87)⟩,
        ⟨some "BATTERY", some 400000, some 41, some (-87)⟩,
        ⟨some "THEFT", some 300000, some 41, some (-87)⟩]).Pairwise byCountDesc ∧
     List.Sublist
       ((top_crimes_of [⟨some "THEFT", some 500000, some 41, some (-87)⟩,
          ⟨some "BATTERY", some 400000, some 41, some (-87)⟩,
          ⟨some "THEFT", some 300000, some 41, some (-87)⟩]).filter
         (fun x => decide (x.2 = 1)))
       ((counter (([⟨some "THEFT", some 500000, some 41, some (-87)⟩,
          ⟨some "BATTERY", some 400000, some 41, some (-87)⟩,
          ⟨some "THEFT", some 300000, some 41, some (-87)⟩] :
            List FeedRecord).map (fun r => r.primary_type))).filter
         (fun x => decide (x.2 = 1))) ∧
     (counter (([⟨some "THEFT", some 500000, some 41, some (-87)⟩,
        ⟨some "BATTERY", some 400000, some 41, some (-87)⟩,
        ⟨some "THEFT", some 300000, some 41, some (-87)⟩] :
          List FeedRecord).map (fun r => r.primary_type))).map Prod.fst =
       dedupFirst [] (([⟨some "THEFT", some 500000, some 41, some (-87)⟩,
        ⟨some "BATTERY", some 400000, some 41, some (-87)⟩,
        ⟨some "THEFT", some 300000, some 41, some (-87)⟩] :
          List FeedRecord).map (fun r => r.primary_type))) :=
  ⟨by decide,
   top_categories_sorted_stable
     [⟨some "THEFT", some 500000, some 41, some (-87)⟩,
      ⟨some "BATTERY", some 400000, some 41, some (-87)⟩,
      ⟨some "THEFT", some 300000, some 41, some (-87)⟩] (by decide) 1⟩

end NoxCrime
